import Mathlib

/-!
Shallow embedding of `neural_style/neural_style.py` (fast neural style:
training loop, loss engine, CLI orchestration).

Modelling conventions:
* Numeric tensors are nested lists of rationals.  A batched feature tensor
  (`Tensor3`) is indexed batch × channel × spatial-position (height and width
  flattened into one axis, exactly how `gram_matrix` views them).
* The external collaborators (the Transformer network, the frozen VGG16
  extractor, the image-pipeline normalisations and the backward+Adam update)
  are opaque function parameters bundled in `Env`; convolutional networks act
  independently per sample, so they are given per sample and lifted to
  batches by `map`.
* Python floats become rationals; in-place tensor mutation becomes value
  passing; `sys.exit` becomes an `Outcome` value.
-/

namespace FastNeuralStyle

/-- A batched tensor: batch × channel × flattened spatial positions. -/
abbrev Tensor3 := List (List (List ℚ))

/-- Dot product of two equally shaped vectors (`zip` ignores any excess). -/
def dot (a b : List ℚ) : ℚ := ((a.zip b).map fun p => p.1 * p.2).sum

/-- Flatten a batched tensor to the list of its scalar entries. -/
def flat3 (t : Tensor3) : List ℚ := (t.map fun m => m.flatten).flatten

/-- `torch.nn.MSELoss()` (external library): mean of squared differences over
all elements of two same-shaped tensors (here flattened; empty input gives
`0/0 = 0`). -/
def mse3 (a b : Tensor3) : ℚ :=
  ((((flat3 a).zip (flat3 b)).map fun p => (p.1 - p.2) ^ 2).sum) /
    ((flat3 a).length : ℚ)

/-- Modelled from the spec: `utils.gram_matrix` is repository code not under
`src/`.  Spec §3 Data Model: "for a feature map of C channels and H×W spatial
positions, the C×C matrix of inner products between channel-flattened feature
vectors, normalized by element count (C·H·W)".  This is one sample's Gram
matrix; the feature map is channels × positions. -/
def gram_one (f : List (List ℚ)) : List (List ℚ) :=
  f.map fun fi =>
    f.map fun fj => dot fi fj / ((f.length : ℚ) * ((f.headD []).length : ℚ))

/-- Modelled from the spec: `utils.gram_matrix` applied to a batched feature
tensor computes one Gram matrix per sample (batched matrix product in the
source). -/
def gram_matrix (t : Tensor3) : Tensor3 := t.map gram_one

/-- The `args` record produced by the `train` subcommand's argument parsing
(`main`, lines 163-177).  `cuda` keeps the source's integer encoding
(`--cuda {0|1}`), since `train` reassigns it to the integer `0`. -/
structure Args where
  batch_size : Nat
  epochs : Nat
  seed : Int
  cuda : Nat
  lr : ℚ
  style_image : String
  content_weight : ℚ
  style_weight : ℚ
  dataset : String
  image_size : Nat
  style_size : Nat
  log_interval : Nat
  vgg_model_dir : String
  save_model_dir : String

/-- The external collaborators of the training loop, acting per sample.
`vgg` maps one image to its per-layer feature maps (`L` layers, each
channels × positions); `transformer` is the trainable network's forward pass
at parameters `P`; `preprocess` is `utils.preprocess_batch`, `subMean` is
`utils.subtract_imagenet_mean_batch`, per sample; `optStep` abstracts
`total_loss.backward(); optimizer.step()` as an opaque deterministic update
of the parameters from the current batch; `initParams` is `TransformerNet()`
initialisation and `loadStyle` the loaded style image. -/
structure Env (Img P : Type) where
  L : Nat
  vgg : Img → List (List (List ℚ))
  transformer : P → Img → Img
  preprocess : Img → Img
  subMean : Img → Img
  optStep : P → List Img → P
  initParams : P
  loadStyle : Img

/-- Lines 23-25: `if args.cuda and not torch.cuda.is_available(): print
warning; args.cuda = 0`.  Returns the (possibly reassigned) `args` and the
list of printed warnings. -/
def resolveArgs (args : Args) (cuda_available : Bool) : Args × List String :=
  if args.cuda ≠ 0 ∧ ¬cuda_available then
    ({ args with cuda := 0 }, ["WARNING: torch.cuda not available, using CPU."])
  else (args, [])

/-- The state of a `torch.utils.data.DataLoader` as constructed on line 55:
`DataLoader(train_dataset, batch_size=args.batch_size, **kwargs)`.  The
`kwargs` only ever carry `num_workers`/`pin_memory`; `shuffle` is not passed,
so it keeps the library default `False`. -/
structure DataLoaderState (α : Type) where
  dataset : List α
  batch_size : Nat
  shuffle : Bool
  num_workers : Nat

/-- Line 55: the training loader; `shuffle` defaults to `False`. -/
def train_loader (dataset : List Img) (args : Args) : DataLoaderState Img :=
  { dataset := dataset
    batch_size := args.batch_size
    shuffle := false
    num_workers := 0 }

/-- Worker for `chunkList`, structurally recursive on a fuel argument that
starts at the list's length (the fuel never runs out on a nonempty list when
it starts that high). -/
def chunkListGo (bs : Nat) : Nat → List α → List (List α)
  | _, [] => []
  | 0, l => [l]
  | fuel + 1, x :: xs =>
      (x :: xs.take (bs - 1)) :: chunkListGo bs fuel (xs.drop (bs - 1))

/-- Split a list into consecutive batches of size `bs` (a trailing batch may
be shorter).  For the degenerate `bs = 0`, which the library rejects, this
yields singleton batches. -/
def chunkList (bs : Nat) (l : List α) : List (List α) :=
  chunkListGo bs l.length l

/-- Modelled from the spec: the `DataLoader` iteration order is external
library behaviour.  With `shuffle = False` (the constructed value) the loader
yields the dataset's batches in sequential order. -/
def loaderBatches (dl : DataLoaderState α) : List (List α) :=
  chunkList dl.batch_size dl.dataset

/-- The frozen extractor applied to an image batch: per layer `m < L`, the
stacked layer-`m` feature maps of the samples (`features = vgg(batch)` on
lines 76, 99, 100). -/
def vggBatch (env : Env Img P) (xs : List Img) : List Tensor3 :=
  (List.range env.L).map fun m => xs.map fun x => (env.vgg x).getD m []

/-- Lines 69-77: load the style image, replicate it to `batch_size`
(`style.repeat(args.batch_size, 1, 1, 1)`), preprocess, subtract the mean,
run the extractor and take one Gram matrix per layer
(`gram_style = [utils.gram_matrix(y) for y in features_style]`). -/
def gramStyleSetup (args : Args) (env : Env Img P) : List Tensor3 :=
  let style := List.replicate args.batch_size env.loadStyle
  let style_v := (style.map env.preprocess).map env.subMean
  (vggBatch env style_v).map gram_matrix

/-- Lines 85-100 of the batch body: preprocess the batch, run the
transformer (`y = transformer(x)`), clone the preprocessed content
(`xc = Variable(x.data.clone())`), subtract the mean from both and run the
extractor.  Returns `(features_y, features_xc)`. -/
def batchForward (env : Env Img P) (params : P) (x : List Img) :
    List Tensor3 × List Tensor3 :=
  let xp := x.map env.preprocess
  let y := xp.map (env.transformer params)
  let xc := xp
  let y2 := y.map env.subMean
  let xc2 := xc.map env.subMean
  (vggBatch env y2, vggBatch env xc2)

/-- The unweighted content MSE of lines 102-104: `mse_loss(features_y[1],
f_xc_c)` where `f_xc_c` is the value (detached copy) of `features_xc[1]`. -/
def content_mse (env : Env Img P) (params : P) (x : List Img) : ℚ :=
  mse3 ((batchForward env params x).1.getD 1 [])
    ((batchForward env params x).2.getD 1 [])

/-- Line 104: `content_loss = args.content_weight * mse_loss(...)`. -/
def content_loss (args : Args) (env : Env Img P) (params : P)
    (x : List Img) : ℚ :=
  args.content_weight * content_mse env params x

/-- The unweighted style MSE of layer `m` in the loop of lines 107-110:
`mse_loss(gram_y, gram_s[:n_batch, :, :])` where `gram_s` is the value of the
precomputed `gram_style[m]` and `n_batch = len(x)`. -/
def style_mse_layer (env : Env Img P) (gram_style : List Tensor3) (params : P)
    (x : List Img) (m : Nat) : ℚ :=
  mse3 (gram_matrix ((batchForward env params x).1.getD m []))
    ((gram_style.getD m []).take x.length)

/-- Lines 106-110: `style_loss = 0.; for m in range(len(features_y)):
style_loss += args.style_weight * mse_loss(gram_y, gram_s[:n_batch])`. -/
def style_loss (args : Args) (env : Env Img P) (gram_style : List Tensor3)
    (params : P) (x : List Img) : ℚ :=
  ((List.range (batchForward env params x).1.length).map fun m =>
    args.style_weight * style_mse_layer env gram_style params x m).sum

/-- Line 112: `total_loss = content_loss + style_loss`, the scalar that is
back-propagated. -/
def total_loss (args : Args) (env : Env Img P) (gram_style : List Tensor3)
    (params : P) (x : List Img) : ℚ :=
  content_loss args env params x + style_loss args env gram_style params x

/-- The Python local state threaded through the epoch/batch loops of `train`
(lines 79-126): the transformer's parameters, the precomputed style Gram
matrices (read inside the loop, never assigned), the running loss
accumulators, the sample counter and the emitted log lines
`(count, avg content, avg style, avg total)`. -/
structure TrainState (P : Type) where
  params : P
  gram_style : List Tensor3
  agg_content_loss : ℚ
  agg_style_loss : ℚ
  count : Nat
  logs : List (Nat × ℚ × ℚ × ℚ)

/-- Lines 85-126, one iteration of `for batch_id, (x, _) in
enumerate(train_loader)`: count the samples, compute the losses, back. and
step the optimizer, add the (weighted) losses to the accumulators, and log
every `log_interval` batches, dividing the accumulators by the number of
batches processed so far (`batch_id + 1`). -/
def trainStep (args : Args) (env : Env Img P) (batch_id : Nat)
    (s : TrainState P) (x : List Img) : TrainState P :=
  let n_batch := x.length
  let count := s.count + n_batch
  let cl := content_loss args env s.params x
  let sl := style_loss args env s.gram_style s.params x
  let params := env.optStep s.params x
  let agg_c := s.agg_content_loss + cl
  let agg_s := s.agg_style_loss + sl
  let logs :=
    if (batch_id + 1) % args.log_interval = 0 then
      s.logs ++ [(count, agg_c / ((batch_id + 1 : Nat) : ℚ),
        agg_s / ((batch_id + 1 : Nat) : ℚ),
        (agg_c + agg_s) / ((batch_id + 1 : Nat) : ℚ))]
    else s.logs
  { params := params
    gram_style := s.gram_style
    agg_content_loss := agg_c
    agg_style_loss := agg_s
    count := count
    logs := logs }

/-- The batch loop of one epoch, with `batch_id` the enumeration counter. -/
def runBatches (args : Args) (env : Env Img P) :
    Nat → TrainState P → List (List Img) → TrainState P
  | _, s, [] => s
  | batch_id, s, x :: rest =>
      runBatches args env (batch_id + 1) (trainStep args env batch_id s x) rest

/-- Lines 80-83: at epoch start the accumulators and the sample counter are
reset to zero (`agg_content_loss = 0.; agg_style_loss = 0.; count = 0`);
parameters, style Grams and already printed log lines persist. -/
def epochStart (s : TrainState P) : TrainState P :=
  { s with agg_content_loss := 0, agg_style_loss := 0, count := 0 }

/-- One iteration of `for e in range(args.epochs)` (lines 79-126). -/
def runEpoch (args : Args) (env : Env Img P) (batches : List (List Img))
    (s : TrainState P) : TrainState P :=
  runBatches args env 0 (epochStart s) batches

/-- The whole epoch loop: `for e in range(args.epochs)`. -/
def runEpochs (args : Args) (env : Env Img P) (batches : List (List Img)) :
    Nat → TrainState P → TrainState P
  | 0, s => s
  | n + 1, s => runEpochs args env batches n (runEpoch args env batches s)

/-- `str.replace(' ', '_')` applied to `time.ctime()` on line 131. -/
def underscored (s : String) : String :=
  s.map fun c => if c = ' ' then '_' else c

/-- Lines 131-132: `"epoch_" + str(args.epochs) + "_" +
str(time.ctime()).replace(' ', '_') + "_" + str(args.content_weight) + "_" +
str(args.style_weight) + ".model"`.  `ctime` is the wall-clock string and
`cwStr`/`swStr` are the decimal renderings `str(args.content_weight)`,
`str(args.style_weight)`. -/
def save_model_filename (epochs : Nat) (ctime cwStr swStr : String) : String :=
  "epoch_" ++ toString epochs ++ "_" ++ underscored ctime ++ "_" ++
    cwStr ++ "_" ++ swStr ++ ".model"

/-- What `train` leaves behind: the warnings it printed, the final loop
state, and the checkpoint written on lines 128-134 (its filename and the
serialized parameters). -/
structure TrainResult (P : Type) where
  warnings : List String
  final : TrainState P
  checkpoint_name : String
  checkpoint_params : P

/-- Lines 19-136, `train(args)`: resolve the backend (possibly reassigning
`args.cuda` with a warning), build the loader, precompute the style Gram
matrices once, run the epoch loop, and save the checkpoint.  `cuda_available`
is `torch.cuda.is_available()`; `dataset` the images of
`datasets.ImageFolder(args.dataset, transform)`; `ctime`, `cwStr`, `swStr`
the string renderings used in the filename. -/
def train (args0 : Args) (cuda_available : Bool) (env : Env Img P)
    (dataset : List Img) (ctime cwStr swStr : String) : TrainResult P :=
  let r := resolveArgs args0 cuda_available
  let args := r.1
  let loader := train_loader dataset args
  let gs := gramStyleSetup args env
  let s0 : TrainState P :=
    { params := env.initParams
      gram_style := gs
      agg_content_loss := 0
      agg_style_loss := 0
      count := 0
      logs := [] }
  let final := runEpochs args env (loaderBatches loader) args.epochs s0
  { warnings := r.2
    final := final
    checkpoint_name := save_model_filename args.epochs ctime cwStr swStr
    checkpoint_params := final.params }

/-- Lines 139-147, `check_paths(args)`: `os.makedirs` for the VGG model
directory and then the save-model directory, exiting with code 1 on
`OSError`.  The four flags say whether each directory already exists and
whether creating it would succeed; the result is `true` when no `OSError`
is raised. -/
def check_paths (vgg_dir_exists mkdir_vgg_ok save_dir_exists
    mkdir_save_ok : Bool) : Bool :=
  if ¬vgg_dir_exists ∧ ¬mkdir_vgg_ok then false
  else if ¬save_dir_exists ∧ ¬mkdir_save_ok then false
  else true

/-- The two CLI subcommands of `main` (lines 163, 179). -/
inductive Subcommand where
  | train
  | eval

/-- How a run of `main` ends: `exited c` models `sys.exit(c)` before any
work, `trained r` a completed training run (process exit code 0), and
`stylized` a completed `eval` run. -/
inductive Outcome (P : Type) where
  | exited (code : Nat)
  | trained (r : TrainResult P)
  | stylized

/-- The process exit code of an outcome (normal completion exits 0). -/
def exitCode : Outcome P → Nat
  | .exited c => c
  | .trained _ => 0
  | .stylized => 0

/-- Whether any training or stylization work was performed. -/
def didWork : Outcome P → Bool
  | .exited _ => false
  | .trained _ => true
  | .stylized => true

/-- Lines 159-195, `main()`: with no subcommand print an error and
`sys.exit(1)`; with `train`, run `check_paths` (which exits 1 on failure)
then `train`; with `eval`, run `stylize`. -/
def main (subcmd : Option Subcommand)
    (vgg_dir_exists mkdir_vgg_ok save_dir_exists mkdir_save_ok : Bool)
    (args : Args) (cuda_available : Bool) (env : Env Img P)
    (dataset : List Img) (ctime cwStr swStr : String) : Outcome P :=
  match subcmd with
  | none => .exited 1
  | some .train =>
      if check_paths vgg_dir_exists mkdir_vgg_ok save_dir_exists mkdir_save_ok
      then .trained (train args cuda_available env dataset ctime cwStr swStr)
      else .exited 1
  | some .eval => .stylized

/-! ### Derived notions used to state the claims -/

/-- The per-batch `(content_loss, style_loss)` values over a run of batches,
with the parameters evolving by `optStep` exactly as in the loop — entry `i`
is the pair of weighted loss scalars computed at batch `i` (line 104 and
lines 106-110). -/
def lossSeq (args : Args) (env : Env Img P) (gram_style : List Tensor3) :
    P → List (List Img) → List (ℚ × ℚ)
  | _, [] => []
  | p, x :: rest =>
      (content_loss args env p x, style_loss args env gram_style p x) ::
        lossSeq args env gram_style (env.optStep p x) rest

/-- The unweighted per-batch content MSE values over a run of batches (the
quantity the spec calls the "unweighted per-step loss value"), with the
parameters evolving exactly as in the loop. -/
def unweightedContentSeq (env : Env Img P) : P → List (List Img) → List ℚ
  | _, [] => []
  | p, x :: rest =>
      content_mse env p x :: unweightedContentSeq env (env.optStep p x) rest

/-- Arithmetic mean of a list of rationals (`0` for the empty list). -/
def meanQ (l : List ℚ) : ℚ := l.sum / (l.length : ℚ)

/-- The loss formula written from the spec's words (§4.2 Loss Engine), to be
compared with the source's `total_loss`: content loss = `content_weight ×
MSE` at the designated layer (index 1) between the stylized and the detached
content features; style loss = `style_weight × Σ_layers MSE(Gram(stylized
features), precomputed style Gram sliced to the batch size)`, summed (not
averaged) over layers; total = content + style. -/
def specTotalLoss (args : Args) (env : Env Img P) (gram_style : List Tensor3)
    (params : P) (x : List Img) : ℚ :=
  args.content_weight *
      mse3 ((batchForward env params x).1.getD 1 [])
        ((batchForward env params x).2.getD 1 []) +
    args.style_weight *
      ((List.range (batchForward env params x).1.length).map fun m =>
        mse3 (gram_matrix ((batchForward env params x).1.getD m []))
          ((gram_style.getD m []).take x.length)).sum

/-- `sub` occurs contiguously inside `s`. -/
def containsSub (s sub : String) : Prop :=
  ∃ p q : List Char, s.data = p ++ sub.data ++ q

/-- `s` starts with `sub`. -/
def beginsWith (s sub : String) : Prop :=
  ∃ q : List Char, s.data = sub.data ++ q

/-! ### Helper lemmas -/

theorem string_data_append (a b : String) : (a ++ b).data = a.data ++ b.data :=
  rfl

theorem trainStep_gram_style (args : Args) (env : Env Img P) (batch_id : Nat)
    (s : TrainState P) (x : List Img) :
    (trainStep args env batch_id s x).gram_style = s.gram_style := rfl

theorem runBatches_gram_style (args : Args) (env : Env Img P) :
    ∀ (bs : List (List Img)) (batch_id : Nat) (s : TrainState P),
      (runBatches args env batch_id s bs).gram_style = s.gram_style := by
  intro bs
  induction bs with
  | nil => intro batch_id s; rfl
  | cons x rest ih =>
      intro batch_id s
      rw [runBatches, ih, trainStep_gram_style]

theorem runEpochs_gram_style (args : Args) (env : Env Img P)
    (batches : List (List Img)) :
    ∀ (n : Nat) (s : TrainState P),
      (runEpochs args env batches n s).gram_style = s.gram_style := by
  intro n
  induction n with
  | zero => intro s; rfl
  | succ n ih =>
      intro s
      rw [runEpochs, ih, runEpoch, runBatches_gram_style]
      rfl

theorem runBatches_agg (args : Args) (env : Env Img P) :
    ∀ (bs : List (List Img)) (batch_id : Nat) (s : TrainState P),
      (runBatches args env batch_id s bs).agg_content_loss =
          s.agg_content_loss +
            ((lossSeq args env s.gram_style s.params bs).map Prod.fst).sum ∧
        (runBatches args env batch_id s bs).agg_style_loss =
          s.agg_style_loss +
            ((lossSeq args env s.gram_style s.params bs).map Prod.snd).sum := by
  intro bs
  induction bs with
  | nil => intro batch_id s; simp [runBatches, lossSeq]
  | cons x rest ih =>
      intro batch_id s
      rw [runBatches]
      constructor
      · rw [(ih (batch_id + 1) (trainStep args env batch_id s x)).1]
        simp only [trainStep, lossSeq, List.map_cons, List.sum_cons]
        ring
      · rw [(ih (batch_id + 1) (trainStep args env batch_id s x)).2]
        simp only [trainStep, lossSeq, List.map_cons, List.sum_cons]
        ring

theorem lossSeq_length (args : Args) (env : Env Img P)
    (gram_style : List Tensor3) :
    ∀ (p : P) (bs : List (List Img)),
      (lossSeq args env gram_style p bs).length = bs.length := by
  intro p bs
  induction bs generalizing p with
  | nil => rfl
  | cons x rest ih => simp [lossSeq, ih]

theorem chunkListGo_flatten (bs : Nat) :
    ∀ (fuel : Nat) (l : List α), l.length ≤ fuel →
      (chunkListGo bs fuel l).flatten = l := by
  intro fuel
  induction fuel with
  | zero =>
      intro l h
      cases l with
      | nil => rfl
      | cons x xs => simp at h
  | succ n ih =>
      intro l h
      cases l with
      | nil => rfl
      | cons x xs =>
          simp only [chunkListGo, List.flatten_cons]
          rw [ih (xs.drop (bs - 1)) (by simp [List.length_drop] at h ⊢; omega)]
          simp [List.take_append_drop]

theorem chunkList_flatten (bs : Nat) (l : List α) :
    (chunkList bs l).flatten = l :=
  chunkListGo_flatten bs l.length l le_rfl

theorem resolveArgs_epochs (args : Args) (c : Bool) :
    (resolveArgs args c).1.epochs = args.epochs := by
  unfold resolveArgs; split <;> rfl

/-! ### A concrete instantiation of the external collaborators

Used to evaluate the embedding at concrete inputs: an image and the
transformer parameters are single rationals, the extractor has two 1×1×1
feature layers, the transformer shifts its input by the parameter. -/

/-- A concrete one-pixel environment. -/
def envX : Env ℚ ℚ where
  L := 2
  vgg := fun x => [[[x]], [[x]]]
  transformer := fun p x => x + p
  preprocess := id
  subMean := id
  optStep := fun p _ => p + 1
  initParams := 1
  loadStyle := 0

/-- A concrete training configuration with `content_weight = 2 ≠ 1`. -/
def argsX : Args where
  batch_size := 2
  epochs := 1
  seed := 42
  cuda := 1
  lr := 1 / 1000
  style_image := "mosaic.jpg"
  content_weight := 2
  style_weight := 1
  dataset := "coco"
  image_size := 256
  style_size := 256
  log_interval := 1
  vgg_model_dir := "models"
  save_model_dir := "ckpt"

/-- `argsX` with a zero epoch count. -/
def argsX0 : Args := { argsX with epochs := 0 }

theorem getD_map_lt {α β : Type} (f : α → β) (l : List α) (m : Nat) (d : β)
    (d' : α) (h : m < l.length) : (l.map f).getD m d = f (l.getD m d') := by
  rw [List.getD_eq_getElem?_getD, List.getD_eq_getElem?_getD, List.getElem?_map,
    List.getElem?_eq_getElem h]
  rfl

theorem vggBatch_getD (env : Env Img P) (xs : List Img) (m : Nat)
    (hm : m < env.L) :
    (vggBatch env xs).getD m [] = xs.map fun x => (env.vgg x).getD m [] := by
  unfold vggBatch
  rw [getD_map_lt _ _ m [] 0 (by simpa using hm), List.getD_eq_getElem?_getD,
    List.getElem?_range hm]
  rfl

theorem vggBatch_length (env : Env Img P) (xs : List Img) :
    (vggBatch env xs).length = env.L := by
  simp [vggBatch]

theorem gramStyleSetup_getD (args : Args) (env : Env Img P) (m : Nat)
    (hm : m < env.L) :
    (gramStyleSetup args env).getD m []
      = gram_matrix ((((List.replicate args.batch_size env.loadStyle).map
          env.preprocess).map env.subMean).map fun x => (env.vgg x).getD m []) := by
  unfold gramStyleSetup
  rw [getD_map_lt gram_matrix _ m [] []
      (by rw [vggBatch_length]; exact hm),
    vggBatch_getD env _ m hm]

/-! ### Claims -/

/-- C1 (counterexample): the claim that `agg_content_loss` holds the sum of
the *unweighted* per-step losses fails at a concrete one-batch run with
`content_weight = 2`: the loop accumulates the weighted value
`content_weight × MSE` (2), not the unweighted MSE (1). -/
theorem C1_counterexample :
    ¬ ((train argsX true envX [(5 : ℚ)] "t" "2.0" "1.0").final.agg_content_loss
        = (unweightedContentSeq envX envX.initParams
            (loaderBatches (train_loader [(5 : ℚ)] argsX))).sum) := by
  norm_num [train, resolveArgs, train_loader, loaderBatches, chunkList,
    chunkListGo, gramStyleSetup, vggBatch, gram_matrix, gram_one, dot, mse3,
    flat3, batchForward, content_mse, content_loss, style_loss,
    style_mse_layer, trainStep, runBatches, runEpoch, runEpochs, epochStart,
    unweightedContentSeq, envX, argsX, List.range_succ]

/-- C1 (amended): over the batches of an epoch (here `bs`, the first k
batches processed), the accumulators hold the sums of the *weighted*
per-step losses — `content_weight × MSE` for content and the weighted layer
sum for style — and dividing by the number of batches processed yields the
arithmetic mean of those first k weighted per-batch losses. -/
theorem C1_agg_weighted_mean (args : Args) (env : Env Img P)
    (s : TrainState P) (bs : List (List Img)) :
    ((runBatches args env 0 (epochStart s) bs).agg_content_loss
        = ((lossSeq args env s.gram_style s.params bs).map Prod.fst).sum ∧
      (runBatches args env 0 (epochStart s) bs).agg_style_loss
        = ((lossSeq args env s.gram_style s.params bs).map Prod.snd).sum) ∧
      (runBatches args env 0 (epochStart s) bs).agg_content_loss /
          ((bs.length : ℚ))
        = meanQ ((lossSeq args env s.gram_style s.params bs).map Prod.fst) ∧
      (runBatches args env 0 (epochStart s) bs).agg_style_loss /
          ((bs.length : ℚ))
        = meanQ ((lossSeq args env s.gram_style s.params bs).map Prod.snd) := by
  have h := runBatches_agg args env bs 0 (epochStart s)
  simp only [epochStart] at h
  have hc := h.1
  have hs := h.2
  rw [zero_add] at hc hs
  refine ⟨⟨hc, hs⟩, ?_, ?_⟩
  · simp only [epochStart]
    rw [hc, meanQ, List.length_map, lossSeq_length]
  · simp only [epochStart]
    rw [hs, meanQ, List.length_map, lossSeq_length]

/-- C2: the back-propagated scalar `total_loss` equals the spec's formula:
`content_weight × MSE` of the designated layer-1 features of the stylized
batch against the detached content features, plus `style_weight ×` the sum
over every extractor layer of the MSE between the Gram of the stylized
features and the precomputed style Gram sliced to the batch size (summed,
not averaged, over layers). -/
theorem C2_total_loss_formula (args : Args) (env : Env Img P)
    (gram_style : List Tensor3) (params : P) (x : List Img) :
    total_loss args env gram_style params x
      = specTotalLoss args env gram_style params x := by
  unfold total_loss specTotalLoss content_loss content_mse style_loss
    style_mse_layer
  rw [List.sum_map_mul_left]

/-- C3: for a final partial batch `x` with `x.length ≤ batch_size` and any
extractor layer `m < L`, the per-batch slice `gram_style[m][:n_batch]` has
exactly `x.length` rows, the setup-time Gram stack indeed has `batch_size`
rows (the replication), and the stylized batch's Gram stack also has
`x.length` rows, so the per-layer MSE compares equally sized stacks and no
out-of-bounds access occurs. -/
theorem C3_final_batch_slice (args : Args) (env : Env Img P) (params : P)
    (x : List Img) (m : Nat)
    (hb : x.length ≤ args.batch_size) (hm : m < env.L) :
    ((((gramStyleSetup args env).getD m []).take x.length).length = x.length) ∧
      ((gramStyleSetup args env).getD m []).length = args.batch_size ∧
      (gram_matrix ((batchForward env params x).1.getD m [])).length
        = x.length := by
  have hlen : ((gramStyleSetup args env).getD m []).length = args.batch_size := by
    rw [gramStyleSetup_getD args env m hm]
    simp [gram_matrix]
  refine ⟨?_, hlen, ?_⟩
  · rw [List.length_take, hlen]
    omega
  · show (gram_matrix ((vggBatch env _).getD m [])).length = x.length
    rw [vggBatch_getD env _ m hm]
    simp [gram_matrix]

/-- C3 witness: the concrete one-pixel run, final batch of size 1 with
configured batch size 2, layer 1. -/
theorem C3_final_batch_slice_witness :
    ([(5 : ℚ)].length ≤ argsX.batch_size ∧ 1 < envX.L) ∧
      (((((gramStyleSetup argsX envX).getD 1 []).take [(5 : ℚ)].length).length
          = [(5 : ℚ)].length) ∧
        ((gramStyleSetup argsX envX).getD 1 []).length = argsX.batch_size ∧
        (gram_matrix ((batchForward envX (1 : ℚ) [(5 : ℚ)]).1.getD 1 [])).length
          = [(5 : ℚ)].length) :=
  ⟨⟨by decide, by decide⟩,
    C3_final_batch_slice argsX envX (1 : ℚ) [(5 : ℚ)] 1 (by decide) (by decide)⟩

/-- C4 (counterexample): the constructed `DataLoader` does not shuffle — the
source passes no `shuffle` argument, so the loader keeps the default
`shuffle = False`; at a concrete dataset and configuration the shuffle flag
is not `true`. -/
theorem C4_counterexample :
    ¬ ((train_loader [(5 : ℚ)] argsX).shuffle = true) := by
  decide

/-- C4 (amended): in every epoch the training loop iterates the dataset in
consecutive batches in dataset order — not shuffled (`shuffle = false`, the
library default) — with the batch size taken from the configuration; the
batches partition the dataset in order. -/
theorem C4_sequential_batches (dataset : List Img) (args : Args) :
    (train_loader dataset args).shuffle = false ∧
      (train_loader dataset args).batch_size = args.batch_size ∧
      loaderBatches (train_loader dataset args)
        = chunkList args.batch_size dataset ∧
      (loaderBatches (train_loader dataset args)).flatten = dataset :=
  ⟨rfl, rfl, rfl, chunkList_flatten _ _⟩

/-- C5 (counterexample): the training configuration is not immutable — at a
configuration requesting CUDA when it is unavailable, `train` reassigns
`args.cuda` (the backend-selection field) to 0, so the field differs from
its constructed value. -/
theorem C5_counterexample :
    ¬ ((resolveArgs argsX false).1.cuda = argsX.cuda) := by
  decide

/-- C5 (amended): `train` modifies no configuration field other than `cuda`:
batch size, epoch count, learning rate, weights, sizes, seed and paths are
preserved verbatim, and `cuda` is reassigned to 0 exactly when CUDA is
requested but unavailable (otherwise it too is preserved). -/
theorem C5_config_fields (args : Args) (cuda_available : Bool) :
    (resolveArgs args cuda_available).1.batch_size = args.batch_size ∧
      (resolveArgs args cuda_available).1.epochs = args.epochs ∧
      (resolveArgs args cuda_available).1.seed = args.seed ∧
      (resolveArgs args cuda_available).1.lr = args.lr ∧
      (resolveArgs args cuda_available).1.content_weight
        = args.content_weight ∧
      (resolveArgs args cuda_available).1.style_weight = args.style_weight ∧
      (resolveArgs args cuda_available).1.image_size = args.image_size ∧
      (resolveArgs args cuda_available).1.style_size = args.style_size ∧
      (resolveArgs args cuda_available).1.log_interval = args.log_interval ∧
      (resolveArgs args cuda_available).1.style_image = args.style_image ∧
      (resolveArgs args cuda_available).1.dataset = args.dataset ∧
      (resolveArgs args cuda_available).1.vgg_model_dir
        = args.vgg_model_dir ∧
      (resolveArgs args cuda_available).1.save_model_dir
        = args.save_model_dir ∧
      (resolveArgs args cuda_available).1.cuda
        = if args.cuda ≠ 0 ∧ ¬cuda_available then 0 else args.cuda := by
  unfold resolveArgs
  split <;> simp_all

/-- C6: the style Gram matrices are computed once at setup (before the first
epoch) and held constant: one batch step leaves `gram_style` unchanged, any
number of epochs leaves it unchanged, and the state `train` ends with still
carries exactly the setup-time value `gramStyleSetup`. -/
theorem C6_gram_style_constant (args : Args) (cuda_available : Bool)
    (env : Env Img P) (dataset : List Img) (ctime cwStr swStr : String)
    (batch_id n : Nat) (s : TrainState P) (x : List Img)
    (batches : List (List Img)) :
    (trainStep args env batch_id s x).gram_style = s.gram_style ∧
      (runEpochs args env batches n s).gram_style = s.gram_style ∧
      (train args cuda_available env dataset ctime cwStr swStr).final.gram_style
        = gramStyleSetup (resolveArgs args cuda_available).1 env := by
  refine ⟨rfl, runEpochs_gram_style args env batches n s, ?_⟩
  simp only [train]
  rw [runEpochs_gram_style]

/-- C7: when CUDA is requested (`args.cuda ≠ 0`) but unavailable, `train`
prints exactly the CPU-fallback warning, continues with the backend field
reset to 0 (CPU), and the run completes normally (exit code 0, work
performed) rather than failing. -/
theorem C7_cuda_fallback (args : Args) (env : Env Img P) (dataset : List Img)
    (ctime cwStr swStr : String)
    (vgg_dir_exists mkdir_vgg_ok save_dir_exists mkdir_save_ok : Bool)
    (hcuda : args.cuda ≠ 0)
    (hpaths : check_paths vgg_dir_exists mkdir_vgg_ok save_dir_exists
      mkdir_save_ok = true) :
    (train args false env dataset ctime cwStr swStr).warnings
        = ["WARNING: torch.cuda not available, using CPU."] ∧
      (resolveArgs args false).1.cuda = 0 ∧
      exitCode (main (some Subcommand.train) vgg_dir_exists mkdir_vgg_ok
          save_dir_exists mkdir_save_ok args false env dataset ctime cwStr
          swStr) = 0 ∧
      didWork (main (some Subcommand.train) vgg_dir_exists mkdir_vgg_ok
          save_dir_exists mkdir_save_ok args false env dataset ctime cwStr
          swStr) = true := by
  have hres : resolveArgs args false
      = ({ args with cuda := 0 },
        ["WARNING: torch.cuda not available, using CPU."]) := by
    unfold resolveArgs
    rw [if_pos ⟨hcuda, by simp⟩]
  refine ⟨?_, ?_, ?_, ?_⟩
  · simp only [train]
    rw [hres]
  · rw [hres]
  · simp only [main]
    rw [if_pos hpaths]
    rfl
  · simp only [main]
    rw [if_pos hpaths]
    rfl

/-- C7 witness: concrete run with CUDA requested, unavailable, and all
directories creatable. -/
theorem C7_cuda_fallback_witness :
    (argsX.cuda ≠ 0 ∧ check_paths true true true true = true) ∧
      ((train argsX false envX [(5 : ℚ)] "t" "2.0" "1.0").warnings
          = ["WARNING: torch.cuda not available, using CPU."] ∧
        (resolveArgs argsX false).1.cuda = 0 ∧
        exitCode (main (some Subcommand.train) true true true true argsX false
          envX [(5 : ℚ)] "t" "2.0" "1.0") = 0 ∧
        didWork (main (some Subcommand.train) true true true true argsX false
          envX [(5 : ℚ)] "t" "2.0" "1.0") = true) :=
  ⟨⟨by decide, by decide⟩,
    C7_cuda_fallback argsX envX [(5 : ℚ)] "t" "2.0" "1.0" true true true true
      (by decide) (by decide)⟩

/-- C8: the checkpoint filename deterministically encodes the configured
epoch count, the timestamp and the two loss weights (it equals
`save_model_filename` applied to them), and for a 1-epoch run it contains
the substring "epoch_1" as well as the rendered content weight and style
weight. -/
theorem C8_checkpoint_name (args : Args) (cuda_available : Bool)
    (env : Env Img P) (dataset : List Img) (ctime cwStr swStr : String)
    (h : args.epochs = 1) :
    (train args cuda_available env dataset ctime cwStr swStr).checkpoint_name
        = save_model_filename args.epochs ctime cwStr swStr ∧
      containsSub (train args cuda_available env dataset ctime cwStr
        swStr).checkpoint_name "epoch_1" ∧
      containsSub (train args cuda_available env dataset ctime cwStr
        swStr).checkpoint_name cwStr ∧
      containsSub (train args cuda_available env dataset ctime cwStr
        swStr).checkpoint_name swStr := by
  have hname : (train args cuda_available env dataset ctime cwStr
      swStr).checkpoint_name = save_model_filename args.epochs ctime cwStr
      swStr := by
    simp only [train]
    rw [resolveArgs_epochs]
  have hname1 : (train args cuda_available env dataset ctime cwStr
      swStr).checkpoint_name = save_model_filename 1 ctime cwStr swStr := by
    rw [hname, h]
  refine ⟨hname, ?_, ?_, ?_⟩
  · rw [hname1]
    refine ⟨[], ("_" ++ underscored ctime ++ "_" ++ cwStr ++ "_" ++ swStr ++
      ".model").data, ?_⟩
    rw [show ("epoch_1" : String).data
      = ("epoch_" ++ toString (1 : Nat)).data from by decide]
    simp [save_model_filename, string_data_append, List.append_assoc]
  · rw [hname1]
    refine ⟨("epoch_" ++ toString (1 : Nat) ++ "_" ++ underscored ctime ++
      "_").data, ("_" ++ swStr ++ ".model").data, ?_⟩
    simp [save_model_filename, string_data_append, List.append_assoc]
  · rw [hname1]
    refine ⟨("epoch_" ++ toString (1 : Nat) ++ "_" ++ underscored ctime ++
      "_" ++ cwStr ++ "_").data, (".model" : String).data, ?_⟩
    simp [save_model_filename, string_data_append, List.append_assoc]

/-- C8 witness: the concrete 1-epoch run; the weight renderings are
`str(2.0)` and `str(1.0)` for `argsX`'s weights 2 and 1. -/
theorem C8_checkpoint_name_witness :
    argsX.epochs = 1 ∧
      ((train argsX true envX [(5 : ℚ)] "Mon Oct" "2.0" "1.0").checkpoint_name
          = save_model_filename argsX.epochs "Mon Oct" "2.0" "1.0" ∧
        containsSub (train argsX true envX [(5 : ℚ)] "Mon Oct" "2.0"
          "1.0").checkpoint_name "epoch_1" ∧
        containsSub (train argsX true envX [(5 : ℚ)] "Mon Oct" "2.0"
          "1.0").checkpoint_name "2.0" ∧
        containsSub (train argsX true envX [(5 : ℚ)] "Mon Oct" "2.0"
          "1.0").checkpoint_name "1.0") :=
  ⟨by decide,
    C8_checkpoint_name argsX true envX [(5 : ℚ)] "Mon Oct" "2.0" "1.0"
      (by decide)⟩

/-- C9: with no subcommand the process exits with code 1 and performs no
work; with the `train` subcommand and a directory that cannot be created
(`check_paths` fails) it also exits with code 1 and performs no work. -/
theorem C9_exit_codes (vgg_dir_exists mkdir_vgg_ok save_dir_exists
    mkdir_save_ok : Bool) (args : Args) (cuda_available : Bool)
    (env : Env Img P) (dataset : List Img) (ctime cwStr swStr : String)
    (hfail : check_paths vgg_dir_exists mkdir_vgg_ok save_dir_exists
      mkdir_save_ok = false) :
    main none vgg_dir_exists mkdir_vgg_ok save_dir_exists mkdir_save_ok args
        cuda_available env dataset ctime cwStr swStr = Outcome.exited 1 ∧
      didWork (main none vgg_dir_exists mkdir_vgg_ok save_dir_exists
        mkdir_save_ok args cuda_available env dataset ctime cwStr swStr)
        = false ∧
      main (some Subcommand.train) vgg_dir_exists mkdir_vgg_ok save_dir_exists
        mkdir_save_ok args cuda_available env dataset ctime cwStr swStr
        = Outcome.exited 1 ∧
      didWork (main (some Subcommand.train) vgg_dir_exists mkdir_vgg_ok
        save_dir_exists mkdir_save_ok args cuda_available env dataset ctime
        cwStr swStr) = false := by
  refine ⟨rfl, rfl, ?_, ?_⟩
  · simp [main, hfail]
  · simp [main, hfail, didWork]

/-- C9 witness: missing VGG model directory that cannot be created. -/
theorem C9_exit_codes_witness :
    check_paths false false true true = false ∧
      (main none false false true true argsX true envX [(5 : ℚ)] "t" "2.0"
          "1.0" = Outcome.exited 1 ∧
        didWork (main none false false true true argsX true envX [(5 : ℚ)]
          "t" "2.0" "1.0") = false ∧
        main (some Subcommand.train) false false true true argsX true envX
          [(5 : ℚ)] "t" "2.0" "1.0" = Outcome.exited 1 ∧
        didWork (main (some Subcommand.train) false false true true argsX
          true envX [(5 : ℚ)] "t" "2.0" "1.0") = false) :=
  ⟨by decide,
    C9_exit_codes false false true true argsX true envX [(5 : ℚ)] "t" "2.0"
      "1.0" (by decide)⟩

/-- C10: with a configured epoch count of 0 the epoch-loop body never runs —
no log line is emitted, no optimizer update happens (the parameters are
still the initial ones) and the sample counter is 0 — yet `train` still
writes a checkpoint: its name starts with "epoch_0_" and it serializes the
untrained initial parameters. -/
theorem C10_zero_epochs (args : Args) (cuda_available : Bool)
    (env : Env Img P) (dataset : List Img) (ctime cwStr swStr : String)
    (h : args.epochs = 0) :
    (train args cuda_available env dataset ctime cwStr swStr).final.logs
        = [] ∧
      (train args cuda_available env dataset ctime cwStr swStr).final.params
        = env.initParams ∧
      (train args cuda_available env dataset ctime cwStr swStr).final.count
        = 0 ∧
      (train args cuda_available env dataset ctime cwStr
        swStr).checkpoint_params = env.initParams ∧
      beginsWith (train args cuda_available env dataset ctime cwStr
        swStr).checkpoint_name "epoch_0_" := by
  have he : (resolveArgs args cuda_available).1.epochs = 0 := by
    rw [resolveArgs_epochs, h]
  refine ⟨?_, ?_, ?_, ?_, ?_⟩
  · simp only [train, he]; rfl
  · simp only [train, he]; rfl
  · simp only [train, he]; rfl
  · simp only [train, he]; rfl
  · simp only [train, he]
    refine ⟨(underscored ctime ++ "_" ++ cwStr ++ "_" ++ swStr ++
      ".model").data, ?_⟩
    rw [show ("epoch_0_" : String).data
      = ("epoch_" ++ toString (0 : Nat) ++ "_").data from by decide]
    simp [save_model_filename, string_data_append, List.append_assoc]

/-- C10 witness: the concrete configuration with `epochs = 0`. -/
theorem C10_zero_epochs_witness :
    argsX0.epochs = 0 ∧
      ((train argsX0 true envX [(5 : ℚ)] "t" "2.0" "1.0").final.logs = [] ∧
        (train argsX0 true envX [(5 : ℚ)] "t" "2.0" "1.0").final.params
          = envX.initParams ∧
        (train argsX0 true envX [(5 : ℚ)] "t" "2.0" "1.0").final.count = 0 ∧
        (train argsX0 true envX [(5 : ℚ)] "t" "2.0"
          "1.0").checkpoint_params = envX.initParams ∧
        beginsWith (train argsX0 true envX [(5 : ℚ)] "t" "2.0"
          "1.0").checkpoint_name "epoch_0_") :=
  ⟨by decide,
    C10_zero_epochs argsX0 true envX [(5 : ℚ)] "t" "2.0" "1.0" (by decide)⟩

end FastNeuralStyle
